import Mathlib

/-!
Shallow embedding of `src/app.py` (a Flask-based student activity monitor):
the activity classifiers, the pose-flag derivation, the session log and
statistics bookkeeping, the stats view, the clear endpoint and the
analyze route's state transitions, together with theorems settling the
specification claims about them.

Python floats (pixel coordinates, confidence scores, brightness, edge
density) are embedded as rationals; Python dicts keyed by strings are
embedded as association lists updated in place at the first matching key.
-/

/-- Outcome of one classification: the `activity` label, the `is_unusual`
flag and the `confidence_score`, as set by the decision cascades of
`analyze_image_advanced` (lines 131-166) and `analyze_image_basic`
(lines 198-210) of `src/app.py`. -/
structure Classification where
  activity : String
  is_unusual : Bool
  confidence_score : ℚ
deriving DecidableEq

/-- The decision cascade of `analyze_image_advanced` (src/app.py lines
131-166), as a function of the detected object labels and the two pose
flags.  Python's `'x' in objects_found` is `objects_found.contains "x"`;
`any(food in objects_found for food in [...])` is `List.any` over the
food list. -/
def analyze_image_advanced (objects_found : List String)
    (head_down hand_raised : Bool) : Classification :=
  if objects_found.contains "cell phone" then
    ⟨"Using Phone", true, 0.95⟩
  else if !objects_found.contains "person" then
    ⟨"Student Absent", true, 0.90⟩
  else if (["fork", "spoon", "bowl", "cup", "bottle"].any
      fun food => objects_found.contains food) then
    ⟨"Eating/Drinking", true, 0.85⟩
  else if head_down && !objects_found.contains "book"
      && !objects_found.contains "laptop" then
    ⟨"Sleeping/Distracted", true, 0.75⟩
  else if hand_raised then
    ⟨"Hand Raised (Participating)", false, 0.90⟩
  else if objects_found.contains "laptop" then
    ⟨"Working on Laptop", false, 0.85⟩
  else if objects_found.contains "book" then
    ⟨"Reading/Studying", false, 0.80⟩
  else if head_down then
    ⟨"Writing/Focused", false, 0.70⟩
  else
    ⟨"Attentive/Listening", false, 0.65⟩

/-- A cascade rule: a predicate over (objects, head_down, hand_raised)
paired with the fixed outcome it produces. -/
def CascadeRule : Type := (List String → Bool → Bool → Bool) × Classification

/-- First-match-wins evaluation of an ordered rule list, falling through
to a default outcome: the semantics the specification (§4.2) prescribes
for the activity classifier. -/
def cascade_eval : List CascadeRule → Classification →
    List String → Bool → Bool → Classification
  | [], fallback, _, _, _ => fallback
  | (p, out) :: rest, fallback, objs, hd, hr =>
    if p objs hd hr then out else cascade_eval rest fallback objs hd hr

/-- The 8 prioritized rules of spec §4.2 (rules 1-8; rule 9 is the
fallback outcome), written from the spec's rule table. -/
def spec_rules : List CascadeRule :=
  [ (fun objs _ _ => objs.contains "cell phone", ⟨"Using Phone", true, 0.95⟩),
    (fun objs _ _ => !objs.contains "person", ⟨"Student Absent", true, 0.90⟩),
    (fun objs _ _ => (["fork", "spoon", "bowl", "cup", "bottle"].any
        fun food => objs.contains food), ⟨"Eating/Drinking", true, 0.85⟩),
    (fun objs hd _ => hd && !objs.contains "book" && !objs.contains "laptop",
        ⟨"Sleeping/Distracted", true, 0.75⟩),
    (fun _ _ hr => hr, ⟨"Hand Raised (Participating)", false, 0.90⟩),
    (fun objs _ _ => objs.contains "laptop", ⟨"Working on Laptop", false, 0.85⟩),
    (fun objs _ _ => objs.contains "book", ⟨"Reading/Studying", false, 0.80⟩),
    (fun _ hd _ => hd, ⟨"Writing/Focused", false, 0.70⟩) ]

/-- Rule 9 of spec §4.2: the default outcome when no earlier rule fires. -/
def spec_fallback : Classification := ⟨"Attentive/Listening", false, 0.65⟩

/-- C1: for every input, `analyze_image_advanced` computes exactly the
first-match-wins evaluation of the 9-rule priority cascade of spec §4.2;
in particular any objects list containing "cell phone" yields
("Using Phone", unusual, 0.95). -/
theorem analyze_image_advanced_cascade_spec (objs : List String)
    (hd hr : Bool) :
    analyze_image_advanced objs hd hr = cascade_eval spec_rules spec_fallback objs hd hr
    ∧ ("cell phone" ∈ objs →
        analyze_image_advanced objs hd hr = ⟨"Using Phone", true, 0.95⟩) := by
  constructor
  · rfl
  · intro h
    simp [analyze_image_advanced, h]

/-- Witness for C1 at a concrete input: an objects list holding both
"cell phone" and "book" (with a person) classifies as "Using Phone". -/
theorem analyze_image_advanced_cascade_spec_witness :
    analyze_image_advanced ["person", "book", "cell phone"] false false
      = ⟨"Using Phone", true, 0.95⟩ :=
  (analyze_image_advanced_cascade_spec ["person", "book", "cell phone"]
    false false).2 (by decide)

/-- The decision cascade of `analyze_image_basic` (src/app.py lines
198-223), as a function of the face count, the edge-density percentage
and the mean brightness.  The confidence score is the constant 0.6 the
code writes into every result of this path. -/
def analyze_image_basic (face_count : ℕ) (edge_density brightness : ℚ) :
    Classification :=
  if face_count = 0 then
    ⟨"Student Absent", true, 0.6⟩
  else if edge_density > 15 then
    ⟨"High Activity Detected", false, 0.6⟩
  else if brightness < 50 then
    ⟨"Low Visibility", true, 0.6⟩
  else
    ⟨"Attentive", false, 0.6⟩

/-- C6: `analyze_image_basic` decides by first match in the fixed order
face_count = 0, edge_density > 15, brightness < 50, default, with
confidence 0.6 in every branch; in particular face_count = 0 dominates. -/
theorem analyze_image_basic_spec (fc : ℕ) (ed br : ℚ) :
    (analyze_image_basic fc ed br).confidence_score = 0.6
    ∧ (fc = 0 → analyze_image_basic fc ed br = ⟨"Student Absent", true, 0.6⟩)
    ∧ (fc ≠ 0 → ed > 15 →
        analyze_image_basic fc ed br = ⟨"High Activity Detected", false, 0.6⟩)
    ∧ (fc ≠ 0 → ¬ ed > 15 → br < 50 →
        analyze_image_basic fc ed br = ⟨"Low Visibility", true, 0.6⟩)
    ∧ (fc ≠ 0 → ¬ ed > 15 → ¬ br < 50 →
        analyze_image_basic fc ed br = ⟨"Attentive", false, 0.6⟩) := by
  unfold analyze_image_basic
  refine ⟨?_, ?_, ?_, ?_, ?_⟩ <;> split_ifs <;> simp_all

/-- Witness for C6: with no face detected, high edge density and high
brightness, the fallback classifier still reports "Student Absent". -/
theorem analyze_image_basic_spec_witness :
    analyze_image_basic 0 99 200 = ⟨"Student Absent", true, 0.6⟩ :=
  (analyze_image_basic_spec 0 99 200).2.1 rfl

/-- The activity-to-unusual table of the specification (C3): the five
activity labels documented as unusual map to `true`, every other label
to `false`. -/
def unusual_of (activity : String) : Bool :=
  activity == "Using Phone" || activity == "Student Absent"
    || activity == "Eating/Drinking" || activity == "Sleeping/Distracted"
    || activity == "Low Visibility"

/-- C3: in every result either classifier can produce, `is_unusual` is
the fixed function `unusual_of` of the activity label alone, so no two
produced results pair the same activity with different unusual flags. -/
theorem is_unusual_function_of_activity :
    (∀ (objs : List String) (hd hr : Bool),
      (analyze_image_advanced objs hd hr).is_unusual
        = unusual_of (analyze_image_advanced objs hd hr).activity)
    ∧ (∀ (fc : ℕ) (ed br : ℚ),
      (analyze_image_basic fc ed br).is_unusual
        = unusual_of (analyze_image_basic fc ed br).activity) := by
  constructor
  · intro objs hd hr
    unfold analyze_image_advanced
    split_ifs <;> rfl
  · intro fc ed br
    unfold analyze_image_basic
    split_ifs <;> rfl

/-- The y pixel coordinate of keypoint `i` in a pose-keypoint list of
(x, y) pairs in model order (index 0 the nose, 5/6 the shoulders, 9/10
the wrists), read as `points[i, 1]` does in src/app.py lines 115-119.
The default is irrelevant: every access is guarded by `len(points) >= 11`. -/
def keypoint_y (points : List (ℚ × ℚ)) (i : ℕ) : ℚ :=
  (points.getD i (0, 0)).2

/-- The head-down check of src/app.py lines 121-125: requires the nose
and the left shoulder to be valid (> 0) and the nose to lie more than
30 pixels below the shoulder average. -/
def head_down_flag (points : List (ℚ × ℚ)) : Bool :=
  if keypoint_y points 0 > 0 ∧ keypoint_y points 5 > 0 then
    if keypoint_y points 0
        > (keypoint_y points 5 + keypoint_y points 6) / 2 + 30 then
      true
    else false
  else false

/-- The hand-raised check of src/app.py lines 127-129: a wrist more than
50 pixels above its shoulder. -/
def hand_raised_flag (points : List (ℚ × ℚ)) : Bool :=
  if keypoint_y points 9 < keypoint_y points 5 - 50
      ∨ keypoint_y points 10 < keypoint_y points 6 - 50 then
    true
  else false

/-- The pose-flag derivation of `analyze_image_advanced` (src/app.py
lines 104-129).  An empty list models the absent-keypoints branches (no
pose result, `keypoints is None`, empty `keypoints.xy`), where the code
likewise leaves both flags at their initial `False`. -/
def derive_pose_flags (points : List (ℚ × ℚ)) : Bool × Bool :=
  if points.length ≥ 11 then
    (head_down_flag points, hand_raised_flag points)
  else (false, false)

/-- The head-down flag as claim C2 states it: nose_y above the shoulder
average plus 30, with both compared values — the nose height and the
shoulder average — valid (> 0). -/
def claimed_head_down (points : List (ℚ × ℚ)) : Bool :=
  if points.length ≥ 11 then
    if keypoint_y points 0 > 0
        ∧ (keypoint_y points 5 + keypoint_y points 6) / 2 > 0
        ∧ keypoint_y points 0
            > (keypoint_y points 5 + keypoint_y points 6) / 2 + 30 then
      true
    else false
  else false

/-- An 11-keypoint frame with the nose at y = 200, the left shoulder at
y = 0 (an undetected landmark), the right shoulder at y = 200 and both
wrists at y = 1000. -/
def c2_points : List (ℚ × ℚ) :=
  [(0, 200), (0, 0), (0, 0), (0, 0), (0, 0), (0, 0), (0, 200),
   (0, 0), (0, 0), (0, 1000), (0, 1000)]

/-- Counterexample to C2: on `c2_points` the nose (200) and the shoulder
average (100) are both positive and the nose is more than 30 below the
average, so the condition claimed for `head_down` holds, yet the code
leaves `head_down` false because its validity check is on
`left_shoulder_y` alone, which is 0 here. -/
theorem claimed_head_down_counterexample :
    claimed_head_down c2_points = true
      ∧ (derive_pose_flags c2_points).1 = false := by
  constructor
  · norm_num [claimed_head_down, c2_points, keypoint_y]
  · norm_num [derive_pose_flags, head_down_flag, c2_points, keypoint_y]

/-- C2 (amended): with at least 11 keypoints, `head_down` holds iff
nose_y > 0 and left_shoulder_y > 0 (the code validates the left
shoulder, not the shoulder average or the right shoulder) and nose_y
exceeds the shoulder average plus 30; `hand_raised` holds iff a wrist
sits 50 above its shoulder; with fewer than 11 keypoints both flags are
false. -/
theorem derive_pose_flags_spec (points : List (ℚ × ℚ)) :
    (points.length ≥ 11 →
      ((derive_pose_flags points).1 = true ↔
        keypoint_y points 0 > 0 ∧ keypoint_y points 5 > 0
          ∧ keypoint_y points 0
              > (keypoint_y points 5 + keypoint_y points 6) / 2 + 30)
      ∧ ((derive_pose_flags points).2 = true ↔
        keypoint_y points 9 < keypoint_y points 5 - 50
          ∨ keypoint_y points 10 < keypoint_y points 6 - 50))
    ∧ (points.length < 11 → derive_pose_flags points = (false, false)) := by
  constructor
  · intro hlen
    unfold derive_pose_flags
    rw [if_pos hlen]
    constructor
    · unfold head_down_flag
      constructor
      · intro h
        split_ifs at h with h1 h2
        exact ⟨h1.1, h1.2, h2⟩
      · intro h
        rw [if_pos ⟨h.1, h.2.1⟩, if_pos h.2.2]
    · unfold hand_raised_flag
      constructor
      · intro h
        by_contra hc
        rw [if_neg hc] at h
        exact Bool.false_ne_true h
      · intro h
        rw [if_pos h]
  · intro hlen
    unfold derive_pose_flags
    rw [if_neg (by omega)]

/-- Witness for C2 (amended) at a concrete frame: 11 keypoints with the
nose at 200, both shoulders at 100 and the left wrist at 20 give
head_down = true and hand_raised = true. -/
theorem derive_pose_flags_spec_witness :
    (derive_pose_flags
      [(0, 200), (0, 0), (0, 0), (0, 0), (0, 0), (0, 100), (0, 100),
       (0, 0), (0, 0), (0, 20), (0, 900)]).1 = true
    ∧ (derive_pose_flags
      [(0, 200), (0, 0), (0, 0), (0, 0), (0, 0), (0, 100), (0, 100),
       (0, 0), (0, 0), (0, 20), (0, 900)]).2 = true :=
  ⟨(((derive_pose_flags_spec
      [(0, 200), (0, 0), (0, 0), (0, 0), (0, 0), (0, 100), (0, 100),
       (0, 0), (0, 0), (0, 20), (0, 900)]).1 (by simp)).1).2
    (by norm_num [keypoint_y]),
   (((derive_pose_flags_spec
      [(0, 200), (0, 0), (0, 0), (0, 0), (0, 0), (0, 100), (0, 100),
       (0, 0), (0, 0), (0, 20), (0, 900)]).1 (by simp)).2).2
    (Or.inl (by norm_num [keypoint_y]))⟩

/-- One stored analysis record, with the fields the bookkeeping reads
(`activity`, `is_unusual`) alongside the identifying ones. -/
structure SessionData where
  student_id : String
  activity : String
  is_unusual : Bool
  confidence_score : ℚ
  timestamp : String
deriving DecidableEq

/-- The log mutation of `save_session` (src/app.py lines 48-57):
`sessions.insert(0, session_data)` followed by `sessions[:1000]`. -/
def save_session (session_data : α) (sessions : List α) : List α :=
  (session_data :: sessions).take 1000

/-- Folding `save_session` over a list of records, oldest first: the log
after those consecutive record operations. -/
def save_session_all (records : List α) (sessions : List α) : List α :=
  records.foldl (fun log r => save_session r log) sessions

lemma save_session_take (r : α) (l : List α) :
    save_session r (l.take 1000) = save_session r l := by
  unfold save_session
  rw [List.take_succ_cons, List.take_succ_cons, List.take_take]
  norm_num

lemma save_session_all_eq (records : List α) (init : List α) :
    save_session_all records (init.take 1000)
      = (records.reverse ++ init).take 1000 := by
  induction records generalizing init with
  | nil => simp [save_session_all]
  | cons r rest ih =>
    have h1 : save_session_all (r :: rest) (init.take 1000)
        = save_session_all rest (save_session r init) := by
      rw [save_session_all, List.foldl_cons, save_session_take]
      rfl
    rw [h1, show save_session r init = ((r :: init).take 1000) from rfl, ih]
    simp [List.append_assoc]

lemma save_session_all_nil (records : List α) :
    save_session_all records [] = records.reverse.take 1000 := by
  have h := save_session_all_eq records []
  simp only [List.take_nil, List.append_nil] at h
  exact h

/-- C4: each `save_session` puts the new record first, keeps the
previous records in order behind it (truncated to 999) and never lets
the log exceed 1000 entries; and after the 1001 consecutive record
operations inserting 0, 1, ..., 1000 into an empty log, the first
record (0) is gone while the log still has 1000 entries and starts with
the most recent record (1000). -/
theorem save_session_spec :
    (∀ (r : ℕ) (log : List ℕ),
      (save_session r log).head? = some r
      ∧ (save_session r log).tail = log.take 999
      ∧ (save_session r log).length ≤ 1000)
    ∧ 0 ∉ save_session_all (List.range 1001) ([] : List ℕ)
    ∧ (save_session_all (List.range 1001) ([] : List ℕ)).head? = some 1000
    ∧ (save_session_all (List.range 1001) ([] : List ℕ)).length = 1000 := by
  have hall : save_session_all (List.range 1001) ([] : List ℕ)
      = (List.range 1001).reverse.take 1000 := save_session_all_nil _
  refine ⟨fun r log => ⟨?_, ?_, ?_⟩, ?_, ?_, ?_⟩
  · rw [save_session, List.take_succ_cons, List.head?_cons]
  · rw [save_session, List.take_succ_cons, List.tail_cons]
  · rw [save_session]
    exact List.length_take_le 1000 _
  · rw [hall]
    intro hmem
    rw [List.mem_iff_getElem] at hmem
    obtain ⟨i, hi, hget⟩ := hmem
    have hi' : i < 1000 := by simpa using hi
    rw [List.getElem_take, List.getElem_reverse, List.getElem_range] at hget
    simp at hget
    omega
  · have hr1 : List.range 1001 = List.range 1000 ++ [1000] := by
      rw [show (1001 : ℕ) = 1000 + 1 from rfl, List.range_succ]
    rw [hall, hr1, List.reverse_append]
    rfl
  · rw [hall]
    simp

/-- The persisted statistics document of src/app.py: total session
count, unusual count, the per-activity occurrence map and the
last-updated timestamp. -/
structure Statistics where
  total_sessions : ℕ
  unusual_count : ℕ
  activities : List (String × ℕ)
  last_updated : Option String
deriving DecidableEq

/-- The default statistics `load_statistics` returns when no file
exists (src/app.py lines 79-84). -/
def default_statistics : Statistics :=
  { total_sessions := 0, unusual_count := 0, activities := [], last_updated := none }

/-- The dict update `d[a] = d.get(a, 0) + 1` of src/app.py line 64, on
an association list: increment the first entry for the key, or append a
fresh entry with count 1. -/
def dict_incr : List (String × ℕ) → String → List (String × ℕ)
  | [], a => [(a, 1)]
  | (k, v) :: rest, a =>
    if k = a then (k, v + 1) :: rest else (k, v) :: dict_incr rest a

/-- The dict read `d.get(a, 0)` on an association list. -/
def dict_get : List (String × ℕ) → String → ℕ
  | [], _ => 0
  | (k, v) :: rest, a => if k = a then v else dict_get rest a

/-- The sum of all counts stored in an activities map. -/
def sum_counts (m : List (String × ℕ)) : ℕ :=
  (m.map Prod.snd).sum

/-- `update_statistics` (src/app.py lines 59-72): bump the total, bump
the recorded activity's count, bump the unusual count when the record
is flagged, and stamp the update time (`now` models `datetime.now()`). -/
def update_statistics (session_data : SessionData) (stats : Statistics)
    (now : String) : Statistics :=
  { total_sessions := stats.total_sessions + 1
    unusual_count :=
      if session_data.is_unusual then stats.unusual_count + 1
      else stats.unusual_count
    activities := dict_incr stats.activities session_data.activity
    last_updated := some now }

/-- Folding `update_statistics` over timestamped records, oldest first. -/
def update_statistics_all (records : List (SessionData × String))
    (stats : Statistics) : Statistics :=
  records.foldl (fun st p => update_statistics p.1 st p.2) stats

lemma dict_get_incr (m : List (String × ℕ)) (a b : String) :
    dict_get (dict_incr m a) b
      = dict_get m b + (if b = a then 1 else 0) := by
  induction m with
  | nil =>
    simp only [dict_incr, dict_get]
    by_cases hab : a = b
    · rw [if_pos hab, if_pos hab.symm]
    · rw [if_neg hab, if_neg (fun h => hab h.symm)]
  | cons kv rest ih =>
    obtain ⟨k, v⟩ := kv
    simp only [dict_incr]
    by_cases hka : k = a
    · rw [if_pos hka]
      subst hka
      simp only [dict_get]
      by_cases hkb : k = b
      · rw [if_pos hkb, if_pos hkb, if_pos hkb.symm]
      · rw [if_neg hkb, if_neg hkb, if_neg (fun h => hkb h.symm)]
        omega
    · rw [if_neg hka]
      simp only [dict_get]
      by_cases hkb : k = b
      · rw [if_pos hkb, if_pos hkb, if_neg (fun h => hka (hkb.trans h))]
        omega
      · rw [if_neg hkb, if_neg hkb, ih]

lemma sum_counts_incr (m : List (String × ℕ)) (a : String) :
    sum_counts (dict_incr m a) = sum_counts m + 1 := by
  induction m with
  | nil => simp [dict_incr, sum_counts]
  | cons kv rest ih =>
    obtain ⟨k, v⟩ := kv
    by_cases hka : k = a
    · simp [dict_incr, sum_counts, hka]
      omega
    · simp [dict_incr, sum_counts, hka] at *
      omega

/-- C5: every `update_statistics` raises `total_sessions` by exactly 1,
raises exactly the recorded activity's count by 1 (and no other's),
preserves the invariant that the activity counts sum to
`total_sessions`, and raises `unusual_count` exactly when the record is
flagged unusual; consequently N record operations from the default
statistics leave `total_sessions` = N.  No operation other than a reset
decrements any of these counts (the update never reads the session log,
so log eviction cannot affect them). -/
theorem update_statistics_spec :
    (∀ (s : Statistics) (r : SessionData) (now : String),
      (update_statistics r s now).total_sessions = s.total_sessions + 1)
    ∧ (∀ (s : Statistics) (r : SessionData) (now : String) (a : String),
      dict_get (update_statistics r s now).activities a
        = dict_get s.activities a + (if a = r.activity then 1 else 0))
    ∧ (∀ (s : Statistics) (r : SessionData) (now : String),
      sum_counts (update_statistics r s now).activities
        = sum_counts s.activities + 1)
    ∧ (∀ (s : Statistics) (r : SessionData) (now : String),
      sum_counts s.activities = s.total_sessions →
        sum_counts (update_statistics r s now).activities
          = (update_statistics r s now).total_sessions)
    ∧ (∀ (s : Statistics) (r : SessionData) (now : String),
      (update_statistics r s now).unusual_count
        = s.unusual_count + (if r.is_unusual then 1 else 0))
    ∧ (∀ records : List (SessionData × String),
      (update_statistics_all records default_statistics).total_sessions
        = records.length) := by
  refine ⟨?_, ?_, ?_, ?_, ?_, ?_⟩
  · intro s r now
    rfl
  · intro s r now a
    exact dict_get_incr s.activities r.activity a
  · intro s r now
    exact sum_counts_incr s.activities r.activity
  · intro s r now h
    show sum_counts (dict_incr s.activities r.activity) = s.total_sessions + 1
    rw [sum_counts_incr, h]
  · intro s r now
    by_cases h : r.is_unusual <;> simp [update_statistics, h]
  · intro records
    suffices h : ∀ (init : Statistics),
        (update_statistics_all records init).total_sessions
          = init.total_sessions + records.length by
      simpa [default_statistics] using h default_statistics
    induction records with
    | nil => intro init; simp [update_statistics_all]
    | cons p rest ih =>
      intro init
      have : update_statistics_all (p :: rest) init
          = update_statistics_all rest (update_statistics p.1 init p.2) := rfl
      rw [this, ih]
      simp [update_statistics]
      omega

/-- Witness for C5 at a concrete state: updating the default statistics
with a flagged "Using Phone" record keeps the counts-sum equal to the
total. -/
theorem update_statistics_spec_witness :
    sum_counts (update_statistics
        ⟨"cam1", "Using Phone", true, 0.95, "t0"⟩ default_statistics "t1").activities
      = (update_statistics
        ⟨"cam1", "Using Phone", true, 0.95, "t0"⟩ default_statistics "t1").total_sessions :=
  update_statistics_spec.2.2.2.1 default_statistics
    ⟨"cam1", "Using Phone", true, 0.95, "t0"⟩ "t1" rfl

/-- `request.form.get(key, default)` on a multipart form embedded as an
association list of text fields. -/
def form_get (form : List (String × String)) (key default_value : String) :
    String :=
  (form.lookup key).getD default_value

/-- The subject identifier the analyze route stores: src/app.py line 264
reads the form field named `student_id` (the spec's `subject_id`) with
default "unknown". -/
def analyze_student_id (form : List (String × String)) : String :=
  form_get form "student_id" "unknown"

/-- The record the analyze route produces on the primary path: the
classifier outcome of lines 131-166 packaged with the caller-supplied
subject identifier and the creation timestamp (lines 170-181). -/
def analyze_result (form : List (String × String)) (objs : List String)
    (hd hr : Bool) (now : String) : SessionData :=
  { student_id := analyze_student_id form
    activity := (analyze_image_advanced objs hd hr).activity
    is_unusual := (analyze_image_advanced objs hd hr).is_unusual
    confidence_score := (analyze_image_advanced objs hd hr).confidence_score
    timestamp := now }

/-- C7: when the form carries the subject-identifier text field with
value x, the produced record stores x as its subject identifier; when
the field is absent it stores the sentinel "unknown". -/
theorem analyze_student_id_spec (form : List (String × String))
    (objs : List String) (hd hr : Bool) (now : String) :
    (∀ x, form.lookup "student_id" = some x →
      (analyze_result form objs hd hr now).student_id = x)
    ∧ (form.lookup "student_id" = none →
      (analyze_result form objs hd hr now).student_id = "unknown") := by
  constructor
  · intro x hx
    show form_get form "student_id" "unknown" = x
    rw [form_get, hx, Option.getD_some]
  · intro hx
    show form_get form "student_id" "unknown" = "unknown"
    rw [form_get, hx, Option.getD_none]

/-- Witness for C7 at concrete forms: a form with student_id = "cam7"
stores "cam7"; an empty form stores "unknown". -/
theorem analyze_student_id_spec_witness :
    (analyze_result [("student_id", "cam7")] ["person"] false false "t").student_id
        = "cam7"
    ∧ (analyze_result [] ["person"] false false "t").student_id = "unknown" :=
  ⟨(analyze_student_id_spec [("student_id", "cam7")] ["person"] false false "t").1
      "cam7" rfl,
   (analyze_student_id_spec [] ["person"] false false "t").2 rfl⟩

/-- Rounding to 2 decimal places, embedding Python's `round(x, 2)` on
the exact rational value. -/
def round2 (x : ℚ) : ℚ :=
  (round (x * 100) : ℤ) / 100

/-- The derived fields `get_stats` (src/app.py lines 329-341) adds to
the statistics response when the session log is nonempty. -/
structure DerivedStats where
  average_confidence : ℚ
  activity_distribution : List (String × ℕ)
  recent_sessions : List SessionData
deriving DecidableEq

/-- `get_stats` (src/app.py lines 323-343): the persisted statistics,
plus — only when the loaded session log is nonempty — the average
confidence over the 20 most recent records, the activity distribution
over the 100 most recent records and a copy of the 10 most recent
records. -/
def get_stats (stats : Statistics) (sessions : List SessionData) :
    Statistics × Option DerivedStats :=
  if sessions.isEmpty then (stats, none)
  else
    (stats, some
      { average_confidence :=
          round2 (((sessions.take 20).map SessionData.confidence_score).sum
            / ((sessions.take 20).length : ℚ))
        activity_distribution :=
          (sessions.take 100).foldl (fun m s => dict_incr m s.activity) []
        recent_sessions := (sessions.take 20).take 10 })

lemma dict_get_fold_incr (l : List SessionData) (m0 : List (String × ℕ))
    (a : String) :
    dict_get (l.foldl (fun m s => dict_incr m s.activity) m0) a
      = dict_get m0 a + l.countP (fun s => s.activity == a) := by
  induction l generalizing m0 with
  | nil => simp
  | cons s rest ih =>
    rw [List.foldl_cons, ih, dict_get_incr, List.countP_cons]
    by_cases h : s.activity = a
    · simp [h]
      omega
    · have h' : ¬ a = s.activity := fun hh => h hh.symm
      simp [h, h']

/-- Counterexample to C8: with an empty stored session log, the stats
response carries none of the derived fields (the code only computes
them under `if sessions:`), while the claim requires them on every
call. -/
theorem get_stats_empty_counterexample :
    (get_stats default_statistics []).2 = none := rfl

/-- C8 (amended): whenever the stored session log is nonempty, the
stats response repeats the persisted statistics unchanged and includes
derived fields recomputed from the current log: an average confidence
equal to the mean over the min(20, length) most recent records rounded
to 2 decimals, an activity distribution counting each activity over the
min(100, length) most recent records, and a copy of the 10 most recent
records.  With an empty log the derived fields are omitted. -/
theorem get_stats_spec (stats : Statistics) (sessions : List SessionData)
    (h : sessions ≠ []) :
    (get_stats stats sessions).1 = stats
    ∧ ∃ d, (get_stats stats sessions).2 = some d
      ∧ d.average_confidence
          = round2 (((sessions.take 20).map SessionData.confidence_score).sum
            / ((min 20 sessions.length : ℕ) : ℚ))
      ∧ (∀ a, dict_get d.activity_distribution a
          = (sessions.take 100).countP (fun s => s.activity == a))
      ∧ d.recent_sessions = sessions.take 10 := by
  have hne : ¬ sessions.isEmpty = true := by
    simpa [List.isEmpty_iff] using h
  unfold get_stats
  rw [if_neg hne]
  refine ⟨rfl, _, rfl, ?_, ?_, ?_⟩
  · rw [List.length_take]
  · intro a
    rw [dict_get_fold_incr]
    show 0 + _ = _
    omega
  · rw [List.take_take]
    norm_num

/-- Witness for C8 (amended): a one-record log yields a stats response
whose base statistics are the stored ones, untouched. -/
theorem get_stats_spec_witness :
    (get_stats default_statistics
      [⟨"cam1", "Using Phone", true, 0.95, "t0"⟩]).1 = default_statistics :=
  (get_stats_spec default_statistics
    [⟨"cam1", "Using Phone", true, 0.95, "t0"⟩] (List.cons_ne_nil _ _)).1

/-- The two persisted JSON documents (src/app.py lines 19-23): `none`
models an absent file. -/
structure DataFiles where
  sessions_file : Option (List SessionData)
  stats_file : Option Statistics
deriving DecidableEq

/-- `load_sessions` (src/app.py lines 41-46): the stored list, or `[]`
when the file does not exist. -/
def load_sessions (d : DataFiles) : List SessionData :=
  d.sessions_file.getD []

/-- `load_statistics` (src/app.py lines 74-84): the stored statistics,
or the zeroed default when the file does not exist. -/
def load_statistics (d : DataFiles) : Statistics :=
  d.stats_file.getD default_statistics

/-- `clear_data` (src/app.py lines 345-352): remove both files. -/
def clear_data (_ : DataFiles) : DataFiles :=
  { sessions_file := none, stats_file := none }

/-- C9: after a clear, whatever the prior persisted state, loading the
statistics yields the zeroed default (total 0, unusual 0, empty
activities, no last-updated time), loading the sessions yields the
empty list, and both persisted documents are gone — no partial reset. -/
theorem clear_data_spec (d : DataFiles) :
    load_statistics (clear_data d) = default_statistics
    ∧ (load_statistics (clear_data d)).total_sessions = 0
    ∧ (load_statistics (clear_data d)).unusual_count = 0
    ∧ (load_statistics (clear_data d)).activities = []
    ∧ (load_statistics (clear_data d)).last_updated = none
    ∧ load_sessions (clear_data d) = []
    ∧ (clear_data d).sessions_file = none
    ∧ (clear_data d).stats_file = none :=
  ⟨rfl, rfl, rfl, rfl, rfl, rfl, rfl, rfl⟩

/-- The dict assignment `latest_frames[student_id] = image` of
src/app.py line 277: replace the entry for the key, or append a fresh
one.  Frames are abstract tokens (ℕ). -/
def set_frame : List (String × ℕ) → String → ℕ → List (String × ℕ)
  | [], sid, img => [(sid, img)]
  | (k, v) :: rest, sid, img =>
    if k = sid then (k, img) :: rest else (k, v) :: set_frame rest sid img

lemma lookup_set_frame (cache : List (String × ℕ)) (sid : String)
    (img : ℕ) : (set_frame cache sid img).lookup sid = some img := by
  induction cache with
  | nil => simp [set_frame]
  | cons kv rest ih =>
    obtain ⟨k, v⟩ := kv
    by_cases hk : k = sid
    · simp [set_frame, hk]
    · have hk' : (sid == k) = false := by
        simpa using fun hh : sid = k => hk hh.symm
      simp [set_frame, hk, List.lookup, hk', ih]

/-- The server state the analyze route touches: the in-memory live
frame cache and the two persisted documents. -/
structure ServerState where
  latest_frames : List (String × ℕ)
  sessions : List SessionData
  statistics : Statistics
deriving DecidableEq

/-- The `/api/analyze` handler (src/app.py lines 257-299) as a state
transition returning an HTTP status.  `file_field` is `none` when the
request has no image field, `some none` when the image fails to decode,
`some (some img)` when decoding succeeds.  `process` stands for the
body of the try-block after the cache write — classification plus
`save_session` — and returns `Except.error` when that body raises; the
cache write at line 277 happens before `process` runs and is not rolled
back when `process` fails. -/
def analyze_route (sid : String) (file_field : Option (Option ℕ))
    (process : ℕ → List SessionData × Statistics →
      Except String (List SessionData × Statistics))
    (st : ServerState) : ℕ × ServerState :=
  match file_field with
  | none => (400, st)
  | some none => (400, st)
  | some (some img) =>
    let cache := set_frame st.latest_frames sid img
    match process img (st.sessions, st.statistics) with
    | Except.ok (l, s) =>
      (200, { latest_frames := cache, sessions := l, statistics := s })
    | Except.error _ =>
      (500, { latest_frames := cache, sessions := st.sessions,
              statistics := st.statistics })

/-- C10: a request rejected with 400 (missing or undecodable image)
leaves the state — in particular the frame cache — untouched; a request
whose image decodes replaces the cache entry for the subject with the
new frame whatever `process` does, so even when classification or
recording fails and the handler answers 500, the cache still holds the
new frame. -/
theorem analyze_route_spec (sid : String) (file_field : Option (Option ℕ))
    (process : ℕ → List SessionData × Statistics →
      Except String (List SessionData × Statistics))
    (st : ServerState) :
    (file_field = none → analyze_route sid file_field process st = (400, st))
    ∧ (file_field = some none →
        analyze_route sid file_field process st = (400, st))
    ∧ (∀ img, file_field = some (some img) →
        (analyze_route sid file_field process st).2.latest_frames
            = set_frame st.latest_frames sid img
        ∧ ((analyze_route sid file_field process st).2.latest_frames).lookup sid
            = some img
        ∧ (∀ e, process img (st.sessions, st.statistics) = Except.error e →
            analyze_route sid file_field process st
              = (500, { latest_frames := set_frame st.latest_frames sid img,
                        sessions := st.sessions,
                        statistics := st.statistics }))) := by
  refine ⟨?_, ?_, ?_⟩
  · intro hf
    rw [hf]
    rfl
  · intro hf
    rw [hf]
    rfl
  · intro img hf
    subst hf
    have hframes : (analyze_route sid (some (some img)) process st).2.latest_frames
        = set_frame st.latest_frames sid img := by
      unfold analyze_route
      cases hp : process img (st.sessions, st.statistics) with
      | ok p =>
        obtain ⟨l, s⟩ := p
        simp [hp]
      | error e =>
        simp [hp]
    refine ⟨hframes, ?_, ?_⟩
    · rw [hframes]
      exact lookup_set_frame st.latest_frames sid img
    · intro e hp
      have hred : analyze_route sid (some (some img)) process st
          = match process img (st.sessions, st.statistics) with
            | Except.ok (l, s) =>
              (200, { latest_frames := set_frame st.latest_frames sid img,
                      sessions := l, statistics := s })
            | Except.error _ =>
              (500, { latest_frames := set_frame st.latest_frames sid img,
                      sessions := st.sessions,
                      statistics := st.statistics }) := rfl
      rw [hred, hp]

/-- Witness for C10 at a concrete request: subject "cam1", a decodable
frame 7 and a failing analysis step give a 500 answer with the new
frame cached. -/
theorem analyze_route_spec_witness :
    analyze_route "cam1" (some (some 7)) (fun _ _ => Except.error "boom")
        ⟨[], [], default_statistics⟩
      = (500, { latest_frames := [("cam1", 7)], sessions := [],
                statistics := default_statistics }) :=
  ((analyze_route_spec "cam1" (some (some 7)) (fun _ _ => Except.error "boom")
      ⟨[], [], default_statistics⟩).2.2 7 rfl).2.2 "boom" rfl
